import Mathlib

/-!
Verification of the gpio-api HTTP server (src/src/main.rs).

The program binds configured GPIO pins to exclusive output line handles at
startup and serves five warp routes over the resulting registry, a
mutex-guarded `Vec<HandlePair>`:

* `GET /get/{id}`        — read a pin addressed by registry index
* `POST /set`            — write a pin addressed by registry index
* `GET /name/get/{name}` — read a pin addressed by name
* `POST /name/set`       — write every pin with a matching name
* `GET /gpio`            — dump all pins

The embedding below is a direct translation of the Rust source.  Hardware
is modelled by oracles: `reads : Nat → ReadResult` gives the outcome of
`LineHandle::get_value` on the line at a given hardware offset, and
`wres : Nat → WriteResult` gives the outcome of `LineHandle::set_value`
on that line.  Handlers are pure functions of the registry and these
oracles; a write handler additionally reports the list of write syscalls
it issued and the console lines it printed, so that statements about
hardware effects and about the debug log can be made.
-/

namespace GpioApi

/-- One entry of the registry: `struct HandlePair { handle: LineHandle, name: String }`.
A `LineHandle` is identified by the hardware line offset it was requested
for (`handle.line().offset()` in the source), which is the configured pin
number passed to `get_handle_out`. -/
structure HandlePair where
  offset : Nat
  name : String
  deriving Repr, DecidableEq

/-- Outcome of `handle.get_value()`: `Ok(v)` with `v : u8`, or `Err(_)`. -/
inductive ReadResult where
  | ok (v : Nat)
  | err
  deriving Repr, DecidableEq

/-- Outcome of `handle.set_value(v)`: `Ok(())` or `Err(e)` with message `e`. -/
inductive WriteResult where
  | ok
  | fail (msg : String)
  deriving Repr, DecidableEq

/-- `fn get_handle_value(handle: &LineHandle) -> &'static str`: maps the raw
read outcome to the sentinel strings `"0"`, `"1"`, `"err"`. -/
def get_handle_value (r : ReadResult) : String :=
  match r with
  | .ok 0 => "0"
  | .ok 1 => "1"
  | .ok _ => "err"
  | .err => "err"

/-- `fn set_handle_value(handle: &LineHandle, value: u8, debug: bool)`:
performs the write and returns the console lines printed (the function
itself returns `()` in the source; the write outcome is the oracle's
business).  `offset` is `handle.line().offset()`. -/
def set_handle_value (offset : Nat) (value : Nat) (debug : Bool)
    (res : WriteResult) : List String :=
  match res with
  | .ok => if debug then ["pin " ++ Nat.repr offset ++ " set to " ++ Nat.repr value] else []
  | .fail e => if debug then ["error: " ++ e] else []

/-- `struct FormData { pin: u32, state: u8 }` (the `/set` form body). -/
structure FormData where
  pin : Nat
  state : Nat
  deriving Repr, DecidableEq

/-- `struct FormDataName { name: String, state: u8 }` (the `/name/set` form body). -/
structure FormDataName where
  name : String
  state : Nat
  deriving Repr, DecidableEq

/-- What a write handler produces: the HTTP response body, the write
syscalls issued as (line offset, value) in issue order, and the console
lines printed. -/
structure SetResult where
  response : String
  writes : List (Nat × Nat)
  log : List String
  deriving Repr, DecidableEq

/-- The `get` route closure: `pins.lock().unwrap().get(id)`; if present,
`get_handle_value(&pin.handle)`, else `"invalid GPIO"`. -/
def get (id : Nat) (pins : List HandlePair) (reads : Nat → ReadResult) : String :=
  match pins.get? id with
  | some pin => get_handle_value (reads pin.offset)
  | none => "invalid GPIO"

/-- The `set` route closure: `pins.lock().unwrap().get(form.pin as usize)`;
if present, `set_handle_value(&pin.handle, form.state, debug)` and `"OK"`,
else `"invalid GPIO pin"` with no write performed. -/
def set (form : FormData) (pins : List HandlePair) (debug : Bool)
    (wres : Nat → WriteResult) : SetResult :=
  match pins.get? form.pin with
  | some pin =>
      { response := "OK"
        writes := [(pin.offset, form.state)]
        log := set_handle_value pin.offset form.state debug (wres pin.offset) }
  | none => { response := "invalid GPIO pin", writes := [], log := [] }

/-- The `name_get` route closure: iterate the whole registry; every
matching pin overwrites `value` with its read; answer the final `value`
or `"invalid GPIO name"` when it is still `None`. -/
def name_get (name : String) (pins : List HandlePair)
    (reads : Nat → ReadResult) : String :=
  match pins.foldl
      (fun acc pin =>
        if pin.name == name then some (get_handle_value (reads pin.offset)) else acc)
      none with
  | some v => v
  | none => "invalid GPIO name"

/-- The `name_set` route closure: iterate the whole registry; every
matching pin gets `set_handle_value(&pin.handle, form.state, debug)` and
sets `name_match`; answer `"OK"` if `name_match` else `"invalid GPIO name"`. -/
def name_set (form : FormDataName) (pins : List HandlePair) (debug : Bool)
    (wres : Nat → WriteResult) : SetResult :=
  match pins.foldl
      (fun (acc : Bool × List (Nat × Nat) × List String) pin =>
        if pin.name == form.name then
          (true,
           acc.2.1 ++ [(pin.offset, form.state)],
           acc.2.2 ++ set_handle_value pin.offset form.state debug (wres pin.offset))
        else acc)
      (false, [], []) with
  | (name_match, ws, lg) =>
      { response := if name_match then "OK" else "invalid GPIO name"
        writes := ws
        log := lg }

/-- The `gpio` route closure: build the report by pushing one formatted
line per registry entry, in registry order. -/
def gpio (pins : List HandlePair) (reads : Nat → ReadResult) : String :=
  pins.foldl
    (fun out pin =>
      out ++ ("pin: " ++ Nat.repr pin.offset ++ " | name: " ++ pin.name
          ++ " | state: " ++ get_handle_value (reads pin.offset) ++ "\n"))
    ""

/-- The line the `gpio` route prints for one registry entry
(`format!` with the pin's offset, name and current read value). -/
def gpioLine (reads : Nat → ReadResult) (pin : HandlePair) : String :=
  "pin: " ++ Nat.repr pin.offset ++ " | name: " ++ pin.name
    ++ " | state: " ++ get_handle_value (reads pin.offset) ++ "\n"

/-- Rust `usize::from_str` as invoked by `warp::path::param::<usize>()` on
the decoded path segment: an optional leading `+` followed by one or more
ASCII digits, whose value must fit in `usize` (64-bit target: below 2^64);
anything else is a parse error, which makes the `param` filter reject the
request. -/
def parseUsize (s : String) : Option Nat :=
  let cs := match s.data with
    | '+' :: rest => rest
    | other => other
  if cs.isEmpty then none
  else if cs.all Char.isDigit then
    let v := cs.foldl (fun acc c => acc * 10 + (c.toNat - '0'.toNat)) 0
    if v < 2 ^ 64 then some v else none
  else none

/-- Dispatch of a GET request by path, following the warp filter chain
`get.or(set).or(name_get).or(name_set).or(gpio)`.  `none` models warp
rejection: no filter matched, so the server answers 404 Not Found rather
than a 200 with a body.  The `set` and `name_set` filters start with
`warp::post()` and never match a GET request.  The path shapes of the
remaining filters are pairwise disjoint (first segments `get` / `name` /
`gpio`), so the or-chain is faithfully rendered as a single match on the
path; in particular, when `param::<usize>` fails to parse the segment of
`/get/{id}`, no later filter accepts the request either. -/
def routes_get (path : List String) (pins : List HandlePair)
    (reads : Nat → ReadResult) : Option String :=
  match path with
  | [a] => if a = "gpio" then some (gpio pins reads) else none
  | [a, seg] =>
      if a = "get" then
        match parseUsize seg with
        | some id => some (get id pins reads)
        | none => none
      else none
  | [a, b, seg] =>
      if a = "name" ∧ b = "get" then some (name_get seg pins reads) else none
  | _ => none

/-- Outcome of the startup sequence in `main`: either the process exits
with a diagnostic (`process::exit(1)` after printing `msg`) or the
registry is fully constructed. -/
inductive StartupResult where
  | fatal (msg : String)
  | ok (registry : List HandlePair)
  deriving Repr, DecidableEq

/-- The binding loop of `main`: for each (pin, name) pair of the zipped
configuration lists, `get_handle_out(&mut chip, *pin)`; on error print a
diagnostic and `process::exit(1)`, otherwise push the pair.  `claimFail`
is the hardware oracle for `get_handle_out`: `some e` means requesting
that line fails with message `e`. -/
def bindAll (claimFail : Nat → Option String) :
    List (Nat × String) → StartupResult
  | [] => .ok []
  | (p, n) :: rest =>
      match claimFail p with
      | some e => .fatal ("error opening GPIO pin " ++ Nat.repr p ++ ": " ++ e)
      | none =>
          match bindAll claimFail rest with
          | .fatal m => .fatal m
          | .ok hs => .ok (⟨p, n⟩ :: hs)

/-- Registry construction in `main`:
`for (pin, name) in config.gpio.pins.iter().zip(config.gpio.names)` —
the configured pin and name lists are zipped (truncating to the shorter
list; no length comparison happens anywhere in the program) and each pair
is bound in order. -/
def startup (pins : List Nat) (names : List String)
    (claimFail : Nat → Option String) : StartupResult :=
  bindAll claimFail (pins.zip names)

/-- State a request handler acts on: the registry behind the mutex, and
the hardware state of each line, keyed by offset. -/
structure ServerState where
  registry : List HandlePair
  hw : Nat → Nat

/-- Replay a list of issued write syscalls onto the hardware state. -/
def applyWrites (hw : Nat → Nat) : List (Nat × Nat) → (Nat → Nat)
  | [] => hw
  | (off, v) :: rest => applyWrites (fun x => if x = off then v else hw x) rest

/-- One inbound request, after warp routing and body decoding. -/
inductive Request where
  | getIdx (id : Nat)
  | setIdx (form : FormData)
  | nameGet (name : String)
  | nameSet (form : FormDataName)
  | dump
  deriving Repr, DecidableEq

/-- One request-handling step of the server: dispatch to the matching
closure, answer its response body, and apply the writes it issued to the
hardware state.  No handler touches the registry vector itself: the
closures only call `get` and `iter` on it. -/
def step (req : Request) (s : ServerState) (reads : Nat → ReadResult)
    (wres : Nat → WriteResult) (debug : Bool) : String × ServerState :=
  match req with
  | .getIdx id => (get id s.registry reads, s)
  | .setIdx form =>
      let r := set form s.registry debug wres
      (r.response, { s with hw := applyWrites s.hw r.writes })
  | .nameGet name => (name_get name s.registry reads, s)
  | .nameSet form =>
      let r := name_set form s.registry debug wres
      (r.response, { s with hw := applyWrites s.hw r.writes })
  | .dump => (gpio s.registry reads, s)

/-! ### Helper lemmas -/

/-- direct case analysis: `get_handle_value` only ever produces one of the
three sentinel strings. -/
theorem get_handle_value_cases (r : ReadResult) :
    get_handle_value r = "0" ∨ get_handle_value r = "1" ∨ get_handle_value r = "err" := by
  match r with
  | .ok 0 => exact Or.inl rfl
  | .ok 1 => exact Or.inr (Or.inl rfl)
  | .ok (n + 2) => exact Or.inr (Or.inr rfl)
  | .err => exact Or.inr (Or.inr rfl)

/-- characterization of the `name_set` loop: starting from any accumulator,
the fold appends one write and one log block per matching pin, in registry
order, and or-accumulates the match flag. -/
theorem name_set_foldl (nm : String) (st : Nat) (debug : Bool)
    (wres : Nat → WriteResult) (pins : List HandlePair)
    (b : Bool) (ws : List (Nat × Nat)) (lg : List String) :
    pins.foldl
      (fun (acc : Bool × List (Nat × Nat) × List String) pin =>
        if pin.name == nm then
          (true, acc.2.1 ++ [(pin.offset, st)],
           acc.2.2 ++ set_handle_value pin.offset st debug (wres pin.offset))
        else acc)
      (b, ws, lg)
    = (b || pins.any (fun pin => pin.name == nm),
       ws ++ (pins.filter (fun pin => pin.name == nm)).map (fun pin => (pin.offset, st)),
       lg ++ ((pins.filter (fun pin => pin.name == nm)).map
         (fun pin => set_handle_value pin.offset st debug (wres pin.offset))).flatten) := by
  induction pins generalizing b ws lg with
  | nil => simp
  | cons h t ih =>
    rw [List.foldl_cons]
    cases hm : (h.name == nm)
    · rw [if_neg (by simp), ih]
      simp [hm, List.filter_cons]
    · rw [if_pos rfl, ih]
      simp [hm, List.filter_cons, List.append_assoc]

/-- the `name_get` loop leaves its accumulator untouched on a stretch with
no matching name. -/
theorem name_get_foldl_no_match (nm : String) (reads : Nat → ReadResult)
    (l : List HandlePair) (acc : Option String) (h : ∀ x ∈ l, x.name ≠ nm) :
    l.foldl
      (fun acc pin =>
        if pin.name == nm then some (get_handle_value (reads pin.offset)) else acc)
      acc = acc := by
  induction l generalizing acc with
  | nil => rfl
  | cons a t ih =>
    have ha : (a.name == nm) = false := by
      simp [h a (List.mem_cons_self a t)]
    simp only [List.foldl_cons, ha, Bool.false_eq_true, if_false]
    exact ih _ (fun x hx => h x (List.mem_cons_of_mem _ hx))

/-- binding never fails when every line claim succeeds: the loop returns
the zipped pairs as bindings, in order. -/
theorem bindAll_all_ok (l : List (Nat × String)) :
    bindAll (fun _ => none) l = StartupResult.ok (l.map fun pn => ⟨pn.1, pn.2⟩) := by
  induction l with
  | nil => rfl
  | cons a t ih =>
    obtain ⟨p, n⟩ := a
    simp only [bindAll, ih, List.map_cons]

/-- folding string concatenation of mapped elements equals the join of the
mapped list, for any starting string. -/
theorem string_foldl_append (f : α → String) (l : List α) (out : String) :
    l.foldl (fun o a => o ++ f a) out = out ++ String.join (l.map f) := by
  induction l generalizing out with
  | nil =>
    show out = out ++ String.join []
    simp [String.join]
  | cons a t ih =>
    simp only [List.foldl_cons, List.map_cons]
    rw [ih, String.append_assoc]
    congr 1
    apply String.ext
    simp [String.data_join]

/-- reduction of the route dispatch on a one-segment path. -/
theorem routes_get_one (a : String) (pins : List HandlePair)
    (reads : Nat → ReadResult) :
    routes_get [a] pins reads
      = if a = "gpio" then some (gpio pins reads) else none := by
  simp [routes_get]

/-- reduction of the route dispatch on a two-segment path. -/
theorem routes_get_two (a seg : String) (pins : List HandlePair)
    (reads : Nat → ReadResult) :
    routes_get [a, seg] pins reads
      = if a = "get" then
          match parseUsize seg with
          | some id => some (get id pins reads)
          | none => none
        else none := by
  simp [routes_get]

/-- reduction of the route dispatch on a three-segment path. -/
theorem routes_get_three (a b seg : String) (pins : List HandlePair)
    (reads : Nat → ReadResult) :
    routes_get [a, b, seg] pins reads
      = if a = "name" ∧ b = "get" then some (name_get seg pins reads)
        else none := by
  simp [routes_get]

/-! ### Claim theorems -/

/-- C1: for every registry and every POST /name/set request with form
fields name and state, the handler issues one write of the given state to
every binding whose name equals the given name (in registry order, not
only the first match), and the response body is "OK" when at least one
binding matched and exactly "invalid GPIO name" when no binding matched. -/
theorem name_set_writes_all_matches (form : FormDataName) (pins : List HandlePair)
    (debug : Bool) (wres : Nat → WriteResult) :
    (name_set form pins debug wres).writes
      = (pins.filter (fun pin => pin.name == form.name)).map
          (fun pin => (pin.offset, form.state))
    ∧ (name_set form pins debug wres).response
      = if pins.any (fun pin => pin.name == form.name) then "OK"
        else "invalid GPIO name" := by
  unfold name_set
  rw [name_set_foldl]
  exact ⟨by simp, by simp⟩

/-- C2: for every registry and every GET /name/get request: when the
registry splits as l1 ++ b :: l2 with b matching the requested name and no
binding of l2 matching it (b is the last match in registry order), the
response body is b's read value — later matches overwrite earlier ones;
when no binding matches, the body is exactly "invalid GPIO name". -/
theorem name_get_returns_last_match (nm : String) (reads : Nat → ReadResult) :
    (∀ (l1 l2 : List HandlePair) (b : HandlePair), b.name = nm →
        (∀ x ∈ l2, x.name ≠ nm) →
        name_get nm (l1 ++ b :: l2) reads = get_handle_value (reads b.offset))
    ∧ (∀ pins : List HandlePair, (∀ x ∈ pins, x.name ≠ nm) →
        name_get nm pins reads = "invalid GPIO name") := by
  constructor
  · intro l1 l2 b hb hl2
    unfold name_get
    rw [List.foldl_append, List.foldl_cons, if_pos (beq_iff_eq.mpr hb),
      name_get_foldl_no_match nm reads l2 _ hl2]
  · intro pins h
    unfold name_get
    rw [name_get_foldl_no_match nm reads pins none h]

/-- witness for C2 at a concrete aliased registry: with bindings named
led/led/x at offsets 5/6/7, the read goes to the binding at offset 6, the
last one named led. -/
theorem name_get_returns_last_match_witness :
    name_get "led"
      ([⟨5, "led"⟩] ++ ⟨6, "led"⟩ :: [⟨7, "x"⟩])
      (fun o => if o = 6 then ReadResult.ok 1 else ReadResult.ok 0)
    = get_handle_value
        ((fun o => if o = 6 then ReadResult.ok 1 else ReadResult.ok 0) 6) :=
  (name_get_returns_last_match "led"
      (fun o => if o = 6 then ReadResult.ok 1 else ReadResult.ok 0)).1
    [⟨5, "led"⟩] [⟨7, "x"⟩] ⟨6, "led"⟩ rfl (by decide)

/-- C3 counterexample: the claim says a negative (or non-numeric) path
segment of GET /get yields the body "invalid GPIO" with status 200; in
fact `param::<usize>()` fails to parse "-1", the filter rejects, no other
filter matches the path, and the server answers 404 Not Found — there is
no 200 response at all. -/
theorem get_route_nonnumeric_rejected :
    routes_get ["get", "-1"] [⟨5, "led"⟩] (fun _ => ReadResult.err)
      ≠ some "invalid GPIO"
    ∧ routes_get ["get", "-1"] [⟨5, "led"⟩] (fun _ => ReadResult.err) = none := by
  constructor
  · decide
  · decide

/-- C3 as amended: on GET /get with path segment seg over a registry of
length L — when seg parses as a usize i and i < L the body is one of "0",
"1", "err" (status 200); when seg parses as a usize i with i >= L the body
is exactly "invalid GPIO" (status 200); when seg does not parse as a usize
(negative, non-numeric, or overflowing) the route rejects and the server
answers with a protocol-level 404 instead of a body. -/
theorem get_route_index_spec (seg : String) (pins : List HandlePair)
    (reads : Nat → ReadResult) :
    (∀ i, parseUsize seg = some i → i < pins.length →
        ∃ v, routes_get ["get", seg] pins reads = some v
          ∧ (v = "0" ∨ v = "1" ∨ v = "err"))
    ∧ (∀ i, parseUsize seg = some i → pins.length ≤ i →
        routes_get ["get", seg] pins reads = some "invalid GPIO")
    ∧ (parseUsize seg = none → routes_get ["get", seg] pins reads = none) := by
  refine ⟨?_, ?_, ?_⟩
  · intro i hp hi
    rw [routes_get_two, if_pos rfl, hp]
    refine ⟨get_handle_value (reads ((pins.get ⟨i, hi⟩).offset)), ?_,
      get_handle_value_cases _⟩
    show some (get i pins reads) = _
    unfold get
    rw [List.get?_eq_get hi]
  · intro i hp hi
    rw [routes_get_two, if_pos rfl, hp]
    show some (get i pins reads) = _
    unfold get
    rw [List.get?_eq_none.mpr hi]
  · intro hp
    rw [routes_get_two, if_pos rfl, hp]

/-- witness for C3 as amended: a one-pin registry read at index 0. -/
theorem get_route_index_spec_witness :
    ∃ v, routes_get ["get", "0"] [⟨5, "led"⟩] (fun _ => ReadResult.ok 1) = some v
      ∧ (v = "0" ∨ v = "1" ∨ v = "err") :=
  (get_route_index_spec "0" [⟨5, "led"⟩] (fun _ => ReadResult.ok 1)).1
    0 (by decide) (by decide)

/-- C4: a write failure is never surfaced over HTTP: on POST /set with a
valid index and on POST /name/set with at least one matching name the
response body is "OK" for every possible hardware write outcome, and with
the debug flag off a failed (or successful) write prints nothing at all,
so the failure is visible only via the optional debug log. -/
theorem write_failure_never_surfaced (form : FormData) (formN : FormDataName)
    (pins : List HandlePair) (debug : Bool) :
    (∀ wres : Nat → WriteResult, form.pin < pins.length →
        (set form pins debug wres).response = "OK")
    ∧ (∀ wres : Nat → WriteResult,
        pins.any (fun pin => pin.name == formN.name) = true →
        (name_set formN pins debug wres).response = "OK")
    ∧ (∀ (off v : Nat) (w : WriteResult), set_handle_value off v false w = []) := by
  refine ⟨?_, ?_, ?_⟩
  · intro wres h
    unfold set
    rw [List.get?_eq_get h]
  · intro wres h
    unfold name_set
    rw [name_set_foldl]
    simp [h]
  · intro off v w
    cases w <;> rfl

/-- witness for C4: one pin named led at offset 5; both write routes
answer OK even though every hardware write fails, and the failed write
prints nothing when debug is off. -/
theorem write_failure_never_surfaced_witness :
    (set ⟨0, 1⟩ [⟨5, "led"⟩] false (fun _ => WriteResult.fail "bad")).response = "OK"
    ∧ (name_set ⟨"led", 1⟩ [⟨5, "led"⟩] false
        (fun _ => WriteResult.fail "bad")).response = "OK"
    ∧ set_handle_value 5 1 false (WriteResult.fail "bad") = [] := by
  have h := write_failure_never_surfaced ⟨0, 1⟩ ⟨"led", 1⟩ [⟨5, "led"⟩] false
  exact ⟨h.1 (fun _ => WriteResult.fail "bad") (by decide),
         h.2.1 (fun _ => WriteResult.fail "bad") (by decide),
         h.2.2 5 1 (WriteResult.fail "bad")⟩

/-- C5: on POST /set with a pin index at or beyond the registry length the
handler issues no hardware write at all — replaying its (empty) write list
leaves every line's state unchanged — and the response body is exactly
"invalid GPIO pin". -/
theorem set_out_of_range_no_write (form : FormData) (pins : List HandlePair)
    (debug : Bool) (wres : Nat → WriteResult) (hw : Nat → Nat)
    (h : pins.length ≤ form.pin) :
    set form pins debug wres
      = { response := "invalid GPIO pin", writes := [], log := [] }
    ∧ applyWrites hw (set form pins debug wres).writes = hw := by
  unfold set
  rw [List.get?_eq_none.mpr h]
  exact ⟨rfl, rfl⟩

/-- witness for C5: index 3 on a one-pin registry. -/
theorem set_out_of_range_no_write_witness :
    set ⟨3, 1⟩ [⟨5, "led"⟩] true (fun _ => WriteResult.ok)
      = { response := "invalid GPIO pin", writes := [], log := [] }
    ∧ applyWrites (fun _ => 0)
        (set ⟨3, 1⟩ [⟨5, "led"⟩] true (fun _ => WriteResult.ok)).writes
      = (fun _ => 0) :=
  set_out_of_range_no_write ⟨3, 1⟩ [⟨5, "led"⟩] true (fun _ => WriteResult.ok)
    (fun _ => 0) (by decide)

/-- C6 counterexample: with configured pins [1, 2] and names ["a"] — lists
of different lengths — and every line claim succeeding, startup does not
exit: it constructs a one-binding registry from the zipped lists, silently
dropping the extra pin. -/
theorem startup_mismatch_not_rejected :
    List.length [1, 2] ≠ List.length ["a"]
    ∧ startup [1, 2] ["a"] (fun _ => none)
        = StartupResult.ok [{ offset := 1, name := "a" }] :=
  ⟨by decide, rfl⟩

/-- C6 as amended: mismatched pins/names lengths are not rejected — the
program performs no length validation.  `main` zips the two configured
lists, truncating to the shorter one, and (when every line claim
succeeds) constructs a registry of min(length pins, length names)
bindings from the zipped pairs. -/
theorem startup_zip_truncates (pins : List Nat) (names : List String) :
    startup pins names (fun _ => none)
      = StartupResult.ok ((pins.zip names).map fun pn => ⟨pn.1, pn.2⟩)
    ∧ ((pins.zip names).map fun pn => (⟨pn.1, pn.2⟩ : HandlePair)).length
      = min pins.length names.length := by
  constructor
  · unfold startup
    exact bindAll_all_ok _
  · simp [List.length_zip]

/-- C7: the GET /gpio body is the concatenation, in registry order, of
exactly one line per configured pin — the line built from that binding's
hardware offset, name and current read value, terminated by a newline
(see gpioLine) — and the number of lines equals the number of pins. -/
theorem gpio_one_line_per_pin (pins : List HandlePair)
    (reads : Nat → ReadResult) :
    gpio pins reads = String.join (pins.map (gpioLine reads))
    ∧ (pins.map (gpioLine reads)).length = pins.length := by
  constructor
  · unfold gpio
    exact string_foldl_append (gpioLine reads) pins ""
  · simp

/-- C8: the registry built at startup is the configuration order itself —
the i-th binding pairs the i-th configured pin with the i-th configured
name, via the zip of the two lists — and every request-handling step
(get, set, name get, name set, dump) returns a state whose registry is
exactly the registry it started from: length, ordering and bindings are
never changed by a request. -/
theorem registry_order_and_invariance :
    (∀ (pins : List Nat) (names : List String),
        startup pins names (fun _ => none)
          = StartupResult.ok ((pins.zip names).map fun pn => ⟨pn.1, pn.2⟩))
    ∧ (∀ (req : Request) (s : ServerState) (reads : Nat → ReadResult)
        (wres : Nat → WriteResult) (debug : Bool),
        (step req s reads wres debug).2.registry = s.registry) := by
  constructor
  · intro pins names
    unfold startup
    exact bindAll_all_ok _
  · intro req s reads wres debug
    cases req <;> rfl

/-- C9: on POST /set with a valid pin index, a state value outside the
logical set 0/1 (any u8) is not rejected by any validation: the response
body is still "OK" and the single write issued to the hardware carries
the state value unchanged. -/
theorem set_forwards_any_state (form : FormData) (pins : List HandlePair)
    (debug : Bool) (wres : Nat → WriteResult)
    (hpin : form.pin < pins.length) (hbyte : form.state < 256)
    (hstate : form.state ≠ 0 ∧ form.state ≠ 1) :
    (set form pins debug wres).response = "OK"
    ∧ (set form pins debug wres).writes
        = [((pins.get ⟨form.pin, hpin⟩).offset, form.state)] := by
  unfold set
  rw [List.get?_eq_get hpin]
  exact ⟨rfl, rfl⟩

/-- witness for C9: state 5 on a one-pin registry is forwarded as-is. -/
theorem set_forwards_any_state_witness :
    (set ⟨0, 5⟩ [⟨9, "led"⟩] false (fun _ => WriteResult.ok)).response = "OK"
    ∧ (set ⟨0, 5⟩ [⟨9, "led"⟩] false (fun _ => WriteResult.ok)).writes
        = [(9, 5)] := by
  have h := set_forwards_any_state ⟨0, 5⟩ [⟨9, "led"⟩] false
    (fun _ => WriteResult.ok) (by decide) (by decide) ⟨by decide, by decide⟩
  exact ⟨h.1, h.2⟩

/-- the index-addressed read responds identically under two read oracles
whose sentinel values agree pointwise. -/
theorem get_reads_congr (id : Nat) (pins : List HandlePair)
    (r1 r2 : Nat → ReadResult)
    (h : ∀ o, get_handle_value (r1 o) = get_handle_value (r2 o)) :
    get id pins r1 = get id pins r2 := by
  unfold get
  cases pins.get? id with
  | none => rfl
  | some pin => exact h pin.offset

/-- the name-addressed read responds identically under two read oracles
whose sentinel values agree pointwise. -/
theorem name_get_reads_congr (nm : String) (pins : List HandlePair)
    (r1 r2 : Nat → ReadResult)
    (h : ∀ o, get_handle_value (r1 o) = get_handle_value (r2 o)) :
    name_get nm pins r1 = name_get nm pins r2 := by
  unfold name_get
  have hf := List.foldl_ext
    (fun acc pin =>
      if pin.name == nm then some (get_handle_value (r1 pin.offset)) else acc)
    (fun acc pin =>
      if pin.name == nm then some (get_handle_value (r2 pin.offset)) else acc)
    (none : Option String) (l := pins)
    (fun acc pin _ => by simp only [h])
  rw [hf]

/-- the dump responds identically under two read oracles whose sentinel
values agree pointwise. -/
theorem gpio_reads_congr (pins : List HandlePair) (r1 r2 : Nat → ReadResult)
    (h : ∀ o, get_handle_value (r1 o) = get_handle_value (r2 o)) :
    gpio pins r1 = gpio pins r2 := by
  unfold gpio
  have hf := List.foldl_ext
    (fun out pin =>
      out ++ ("pin: " ++ Nat.repr pin.offset ++ " | name: " ++ pin.name
          ++ " | state: " ++ get_handle_value (r1 pin.offset) ++ "\n"))
    (fun out pin =>
      out ++ ("pin: " ++ Nat.repr pin.offset ++ " | name: " ++ pin.name
          ++ " | state: " ++ get_handle_value (r2 pin.offset) ++ "\n"))
    ("" : String) (l := pins)
    (fun out pin _ => by simp only [h])
  rw [hf]

/-- every GET route responds identically under two read oracles whose
sentinel values agree pointwise. -/
theorem routes_get_reads_congr (path : List String) (pins : List HandlePair)
    (r1 r2 : Nat → ReadResult)
    (h : ∀ o, get_handle_value (r1 o) = get_handle_value (r2 o)) :
    routes_get path pins r1 = routes_get path pins r2 := by
  match path with
  | [] => rfl
  | [a] =>
    rw [routes_get_one, routes_get_one, gpio_reads_congr pins r1 r2 h]
  | [a, seg] =>
    rw [routes_get_two, routes_get_two]
    by_cases ha : a = "get"
    · rw [if_pos ha, if_pos ha]
      cases parseUsize seg with
      | none => rfl
      | some id =>
        show some (get id pins r1) = some (get id pins r2)
        rw [get_reads_congr id pins r1 r2 h]
    · rw [if_neg ha, if_neg ha]
  | [a, b, seg] =>
    rw [routes_get_three, routes_get_three, name_get_reads_congr seg pins r1 r2 h]
  | a :: b :: c :: d :: rest => rfl

/-- C10: a successful hardware read of a value other than 0 or 1 yields
the sentinel "err", exactly as an I/O failure does, and consequently
replacing such a read outcome by an outright read failure at any line is
invisible to every GET route (/get/{id}, /name/get/{name}, /gpio): the
responses coincide, so the caller cannot distinguish the two. -/
theorem out_of_domain_read_indistinguishable (v : Nat)
    (hv0 : v ≠ 0) (hv1 : v ≠ 1) :
    get_handle_value (ReadResult.ok v) = "err"
    ∧ get_handle_value ReadResult.err = "err"
    ∧ ∀ (off : Nat) (reads : Nat → ReadResult) (pins : List HandlePair)
        (path : List String), reads off = ReadResult.ok v →
        routes_get path pins reads
          = routes_get path pins
              (fun o => if o = off then ReadResult.err else reads o) := by
  have hok : get_handle_value (ReadResult.ok v) = "err" := by
    match v, hv0, hv1 with
    | 0, h, _ => exact absurd rfl h
    | 1, _, h => exact absurd rfl h
    | n + 2, _, _ => rfl
  refine ⟨hok, rfl, ?_⟩
  intro off reads pins path hread
  apply routes_get_reads_congr
  intro o
  by_cases ho : o = off
  · subst ho
    rw [if_pos rfl, hread, hok]
    rfl
  · rw [if_neg ho]

/-- witness for C10: over a one-pin registry whose line reads back 2, the
GET /get/0 response is the same as if the read had failed outright. -/
theorem out_of_domain_read_indistinguishable_witness :
    routes_get ["get", "0"] [⟨5, "led"⟩] (fun _ => ReadResult.ok 2)
      = routes_get ["get", "0"] [⟨5, "led"⟩]
          (fun o => if o = 5 then ReadResult.err else (fun _ => ReadResult.ok 2) o) :=
  (out_of_domain_read_indistinguishable 2 (by decide) (by decide)).2.2
    5 (fun _ => ReadResult.ok 2) [⟨5, "led"⟩] ["get", "0"] rfl

end GpioApi
